import Mathlib

/-!
Verification development for the Zoom "Spaces" feedback webhook backend
(`index.js`).  The definitions below are a shallow embedding of the source:
JavaScript truthiness on optional strings is modelled explicitly, JS numbers
that can become `NaN` are modelled as `Option Int` (with `none` playing the
role of `NaN`), network calls are modelled as outcome parameters, and the
external HMAC and JSON-parse primitives are abstract function parameters.
-/

namespace ZoomSpaces

/-- JS truthiness of a value that is either `undefined`/`null` (`none`) or a
string: falsy exactly when absent or the empty string. -/
def jsStrFalsy : Option String → Bool
  | none => true
  | some s => s.isEmpty

/-- JS `x || ''` on an optional string. -/
def jsOrEmpty : Option String → String
  | none => ""
  | some s => s

/-! ## Token manager (`getZoomAccessToken`, index.js lines 139-289) -/

/-- The module-level token cache `zoomAccessTokenCache`.  `expiresAt` is a JS
number; `none` models `NaN`.  The code never actually writes a `NaN` expiry:
a 2xx response without a numeric `expires_in` throws `RangeError` at the
`Expires at:` debug log (index.js line 234, `new Date(NaN).toISOString()`)
before the cache write is reached. -/
structure TokenCache where
  token : Option String
  expiresAt : Option Int
  deriving DecidableEq, Repr

/-- Initial cache value `{ token: null, expiresAt: 0 }`. -/
def initialTokenCache : TokenCache := ⟨none, some 0⟩

/-- Outcome of the axios POST to the OAuth token endpoint.  `success` is a
2xx response carrying the (possibly absent) `access_token` and `expires_in`
fields of the parsed body; `failure` is a non-2xx response or network error,
carrying the string the code interpolates into its rethrown message
(`error.response?.data?.error || error.message`). -/
inductive TokenHttp where
  | success (accessToken : Option String) (expiresIn : Option Int)
  | failure (errMsg : String)
  deriving DecidableEq, Repr

/-- Result of one `getZoomAccessToken` call: the returned value or thrown
error, the cache after the call, and the number of HTTP requests made. -/
structure TokenCallResult where
  result : Except String (Option String)
  cache : TokenCache
  requests : Nat
  deriving Repr

/-- JS `Date.now() < expiresAt` where `expiresAt` may be `NaN`
(`x < NaN` is false). -/
def jsLtOpt (now : Int) : Option Int → Bool
  | some e => now < e
  | none => false

/-- Shallow embedding of `getZoomAccessToken(forceRefresh)` (index.js
lines 147-289).  `clientId` / `clientSecret` are `process.env.ZOOM_CLIENT_ID`
/ `ZOOM_CLIENT_SECRET`; `now` is `Date.now()`; `cache` is the cache at entry;
`http` is the outcome the token endpoint would give if called.  On a 2xx
response whose body has no numeric `expires_in`, the debug log at index.js
line 234 evaluates `new Date(Date.now() + undefined * 1000).toISOString()`
and throws `RangeError: Invalid time value` inside the `try`, before the
cache write; the catch rethrows it as
`Failed to get Zoom access token: ` + `error.message`.  With a numeric
`expires_in` the success path runs to the end whatever `access_token` is
(all its uses are optional-chained), caching and returning the possibly
absent field. -/
def getZoomAccessToken (clientId clientSecret : Option String) (force : Bool)
    (now : Int) (cache : TokenCache) (http : TokenHttp) : TokenCallResult :=
  if !force && !(jsStrFalsy cache.token) && jsLtOpt now cache.expiresAt then
    ⟨.ok cache.token, cache, 0⟩
  else
    let cache1 := if force then initialTokenCache else cache
    if jsStrFalsy clientId || jsStrFalsy clientSecret then
      ⟨.error "Zoom API credentials not configured. Set ZOOM_CLIENT_ID and ZOOM_CLIENT_SECRET in .env",
        cache1, 0⟩
    else
      match http with
      | .success tok expiresIn =>
          match expiresIn with
          | none =>
              ⟨.error ("Failed to get Zoom access token: " ++ "Invalid time value"),
                cache1, 1⟩
          | some e =>
              ⟨.ok tok, ⟨tok, some (now + (e - 300) * 1000)⟩, 1⟩
      | .failure m =>
          ⟨.error ("Failed to get Zoom access token: " ++ m), cache1, 1⟩

/-! ## Token-acquisition logging (`getZoomAccessToken` debug logs) -/

/-- Boolean substring test on character lists. -/
def listIncludes (pat l : List Char) : Bool :=
  l.tails.any (fun t => pat.isPrefixOf t)

/-- JS `s.includes(sub)` for non-empty `sub`. -/
def jsIncludes (sub s : String) : Bool :=
  listIncludes sub.data s.data

/-- `JSON.stringify(obj, null, 2)` for a flat object whose values are given
already rendered as JSON (strings quoted, numbers bare). -/
def jsonStringifyFlat (ps : List (String × String)) : String :=
  "\x7b\n" ++ String.intercalate ",\n"
    (ps.map (fun p => "  \"" ++ p.1 ++ "\": " ++ p.2)) ++ "\n\x7d"

/-- The log lines of the `getZoomAccessToken` success path (index.js lines
164-254) that mention credentials, the token, or the response body, in
source order.  `data` is the parsed 2xx response body with values rendered
as JSON; `Raw response:` logs `JSON.stringify(response.data, null, 2)`
(line 245).  Purely structural log lines (timestamps, header key lists,
node version, and so on) are omitted; omitting a line cannot create a
spurious secret-bearing entry. -/
def zoomTokenSuccessLogs (cid cs tok scope : String)
    (data : List (String × String)) : List String :=
  [ "Using Client ID: " ++ cid
  , "Client Secret length: " ++ toString cs.length
  , "Client Secret first 10 chars: " ++ cs.take 10 ++ "..."
  , "Access token present: " ++ (if tok.isEmpty then "false" else "true")
  , "Access token length: " ++ toString tok.length
  , "Access token first 20 chars: " ++ tok.take 20 ++ "..."
  , "Full scope string: " ++ scope
  , "Raw response: " ++ jsonStringifyFlat data
  , "Successfully obtained Zoom access token with scope: " ++ scope ]

/-- A concrete access token returned by a successful 2xx token response. -/
def c5Token : String := "zoomAccessTokenFullValue0123456789abcdef"

/-- The parsed 2xx token response body carrying `c5Token`. -/
def c5Data : List (String × String) :=
  [ ("access_token", "\"" ++ c5Token ++ "\"")
  , ("token_type", "\"bearer\"")
  , ("expires_in", "3600")
  , ("scope", "\"recording:read\"") ]

/-! ## Transcript normalizer (`parseVTTToText`, index.js lines 432-476)

The function is embedded over `List Char` (structural recursion keeps every
step kernel-computable); `String.data`/`String.mk` convert at the boundary. -/

/-- JS `String.prototype.trim()` on a character list (leading and trailing
whitespace removed). -/
def trimChars (l : List Char) : List Char :=
  ((l.dropWhile Char.isWhitespace).reverse.dropWhile Char.isWhitespace).reverse

/-- JS `s.split('\n')`: splits at every newline, keeping empty pieces. -/
def splitNl : List Char → List (List Char)
  | [] => [[]]
  | c :: cs =>
    match splitNl cs with
    | [] => [[c]]
    | h :: t => if c = '\n' then [] :: h :: t else (c :: h) :: t

/-- Join lines with `'\n'` (JS `Array.prototype.join('\n')`). -/
def joinNl : List (List Char) → List Char
  | [] => []
  | [l] => l
  | l :: ls => l ++ '\n' :: joinNl ls

/-- The skip test of `parseVTTToText` on an already-trimmed line: empty,
`WEBVTT` header, timing arrow, or purely numeric (`/^\d+$/`). -/
def vttSkip (line : List Char) : Bool :=
  line.isEmpty || "WEBVTT".data.isPrefixOf line || listIncludes "-->".data line ||
    (!line.isEmpty && line.all Char.isDigit)

/-- The per-line loop of `parseVTTToText`: `speaker` is `currentSpeaker`
(initially empty). -/
def vttLoop (speaker : List Char) : List (List Char) → List (List Char)
  | [] => []
  | raw :: rest =>
    let line := trimChars raw
    if vttSkip line then
      vttLoop speaker rest
    else if line.contains ':' && !(listIncludes "-->".data line) then
      let sp := trimChars (line.takeWhile (fun c => c ≠ ':'))
      let tx := trimChars ((line.dropWhile (fun c => c ≠ ':')).drop 1)
      if tx.length > 0 && sp.length < 50 then
        (sp ++ ": ".data ++ tx) :: vttLoop sp rest
      else
        line :: vttLoop speaker rest
    else
      if speaker.isEmpty then line :: vttLoop speaker rest
      else (speaker ++ ": ".data ++ line) :: vttLoop speaker rest

/-- Shallow embedding of `parseVTTToText` (index.js lines 432-476). -/
def parseVTTToText (s : String) : String :=
  String.mk (joinNl (vttLoop [] (splitNl s.data)))

/-! ## Feedback generator (`generateFeedback`, index.js lines 720-822)

Result objects are modelled as association lists of field name to rendered
value; the external `JSON.parse` is an abstract parameter returning the
parsed object on success. -/

/-- An element of `payload.object.participants`, as consumed by
`generateFeedback` / `sendFeedbackToParticipants` (`p.name`, `p.email`). -/
structure PersonRef where
  name : Option String
  email : Option String
  deriving DecidableEq, Repr

/-- The mock object returned when the OpenAI key is missing or the
placeholder (index.js lines 727-731). -/
def mockFeedbackObj : List (String × String) :=
  [ ("summary", "Mock meeting summary - OpenAI API key not configured")
  , ("insights", "[Please configure OPENAI_API_KEY in your environment]")
  , ("actionItems", "[Set up OpenAI API key, Redeploy the application]") ]

/-- The structured fallback returned when `JSON.parse(content)` throws
(index.js lines 801-808). -/
def parseFallbackObj (content : String) : List (String × String) :=
  [ ("summary", content.take 200 ++ "...")
  , ("communicationInsights", "[OpenAI response was not in expected JSON format]")
  , ("hiddenDynamics", "[Please check the system prompt configuration]")
  , ("collaborationScore", "7")
  , ("actionItems", "[Review and fix the feedback generation prompt]")
  , ("individualFeedback", "\x7b\x7d") ]

/-- The structured fallback returned when the chat-completion call throws
(index.js lines 813-820). -/
def apiErrorObj (msg : String) : List (String × String) :=
  [ ("summary", "Error generating feedback with OpenAI")
  , ("communicationInsights", "[API Error: " ++ msg ++ "]")
  , ("hiddenDynamics", "[Could not analyze meeting dynamics due to API error]")
  , ("collaborationScore", "0")
  , ("actionItems", "[Fix OpenAI API configuration, Check API key and billing]")
  , ("individualFeedback", "\x7b\x7d") ]

/-- Outcome of the `openai.chat.completions.create` call: the content string
of the single choice, or a thrown error. -/
inductive ChatOutcome where
  | success (content : String)
  | failure (errMsg : String)
  deriving DecidableEq, Repr

/-- Shallow embedding of `generateFeedback(transcript, participants)`
(index.js lines 720-822).  `openaiKey` is `process.env.OPENAI_API_KEY`;
`jsonParse` abstracts `JSON.parse` (returning the parsed object's fields on
success); the second component counts chat-completion network calls.  The
function is total: every throw inside the `try` is converted to the catch
fallback, and no exception escapes. -/
def generateFeedback (openaiKey : Option String)
    (jsonParse : String → Option (List (String × String)))
    (chat : ChatOutcome) (_transcript : String) (_participants : List PersonRef) :
    List (String × String) × Nat :=
  if jsStrFalsy openaiKey || openaiKey == some "your_openai_api_key_here" then
    (mockFeedbackObj, 0)
  else
    match chat with
    | .failure m => (apiErrorObj m, 1)
    | .success content =>
      match jsonParse content with
      | some obj => (obj, 1)
      | none => (parseFallbackObj content, 1)

/-- The field names of a feedback object. -/
def fieldNames (obj : List (String × String)) : List String := obj.map Prod.fst

/-- The six top-level fields the spec requires of a structured fallback. -/
def requiredFeedbackFields : List String :=
  [ "summary", "communicationInsights", "hiddenDynamics"
  , "collaborationScore", "actionItems", "individualFeedback" ]

/-! ## Webhook payload data model (fields of `req.body` the handlers read) -/

/-- `payload.object.participant` of a participant join/leave event. -/
structure WebhookParticipant where
  user_id : Option String
  user_name : Option String
  email : Option String
  deriving DecidableEq, Repr

/-- An element of `payload.object.recording_files`. -/
structure RecordingFile where
  file_type : Option String
  download_url : Option String
  deriving DecidableEq, Repr

/-- `payload.object`; every field the handlers access, each optional as in
the JSON. -/
structure PayloadObject where
  uuid : Option String
  participant : Option WebhookParticipant
  recording_files : Option (List RecordingFile)
  recording_play_passcode : Option String
  participants : Option (List PersonRef)
  deriving DecidableEq, Repr

/-- `req.body.payload`. -/
structure Payload where
  plainToken : Option String
  object : Option PayloadObject
  deriving DecidableEq, Repr

/-- `req.body` as parsed by `express.json`. -/
structure ReqBody where
  event : Option String
  payload : Option Payload
  deriving DecidableEq, Repr

/-! ## Participant registry (`meetingParticipants`, index.js lines 485-526) -/

/-- A record stored in the per-meeting set by `handleParticipantEvent`
(`{ id, name, email, joinTime }`; `email: participant.email || null`). -/
structure StoredParticipant where
  id : Option String
  name : Option String
  email : Option String
  joinTime : String
  deriving DecidableEq, Repr

/-- The `meetingParticipants` map, as an association list from meeting UUID
to the insertion-ordered contents of the JS `Set`.  Since the code adds a
freshly allocated object on every join, `Set` membership never deduplicates
and the set behaves as an append-only list. -/
def Registry := List (String × List StoredParticipant)

instance : DecidableEq Registry := by
  unfold Registry; infer_instance

instance : Repr Registry := by
  unfold Registry; infer_instance

/-- `meetingParticipants.get(uuid)` (`none` when the key is absent). -/
def regGet (r : Registry) (uuid : String) : Option (List StoredParticipant) :=
  (r.find? (fun e => e.1 = uuid)).map Prod.snd

/-- `meetingParticipants.set(uuid, l)`: replace the entry if present,
otherwise append it. -/
def regSet (r : Registry) (uuid : String) (l : List StoredParticipant) : Registry :=
  match r with
  | [] => [(uuid, l)]
  | e :: rest => if e.1 = uuid then (uuid, l) :: rest else e :: regSet rest uuid l

/-- Remove the first element satisfying the predicate (the `for ... break`
deletion loop of `meeting.participant_left`). -/
def removeFirst (p : α → Bool) : List α → List α
  | [] => []
  | x :: xs => if p x then xs else x :: removeFirst p xs

/-- Shallow embedding of `handleParticipantEvent(eventType, payload)`
(index.js lines 490-526).  `.error ()` models the `TypeError` thrown by
`payload.object` when `payload` is `undefined`; that error propagates to the
route's catch.  `nowIso` is `new Date().toISOString()`. -/
def handleParticipantEvent (eventType : String) (payload : Option Payload)
    (nowIso : String) (r : Registry) : Except Unit Registry :=
  match payload with
  | none => .error ()
  | some p =>
    let uuid := p.object.bind (fun o => o.uuid)
    let part := p.object.bind (fun o => o.participant)
    match uuid, part with
    | some u, some pt =>
      if u = "" then .ok r
      else
        let participants := (regGet r u).getD []
        if eventType = "meeting.participant_joined" then
          .ok (regSet r u (participants ++
            [⟨pt.user_id, pt.user_name,
              (if jsStrFalsy pt.email then none else pt.email), nowIso⟩]))
        else if eventType = "meeting.participant_left" then
          .ok (regSet r u (removeFirst (fun q => q.id == pt.user_id) participants))
        else .ok r
    | _, _ => .ok r

/-- Shallow embedding of `handleRecordingCompleted(payload)` (index.js lines
531-544): it only logs, but `payload.object` throws when `payload` is
`undefined`. -/
def handleRecordingCompleted (payload : Option Payload) : Except Unit Unit :=
  match payload with
  | none => .error ()
  | some _ => .ok ()

/-! ## Transcript pipeline (`handleTranscriptCompleted`, lines 549-673) -/

/-- Observable effects of one `handleTranscriptCompleted` run: how many
token-acquisition calls it made, the `generateFeedback` invocations
(transcript text and participant list passed), and how many times it read
the in-memory `meetingParticipants` registry. -/
structure PipelineEffects where
  tokenCalls : Nat
  feedbackCalls : List (String × List PersonRef)
  registryReads : Nat
  deriving DecidableEq, Repr

/-- No pipeline effects. -/
def noEffects : PipelineEffects := ⟨0, [], 0⟩

/-- Shallow embedding of `handleTranscriptCompleted(payload)` (index.js
lines 549-673).  The whole body sits in a `try` whose `catch` only logs, so
the function never throws; a `TypeError` raised by `payload.object`,
`recordingFiles.find`, or `finalDownloadUrl.includes` on an `undefined`
value is swallowed by that catch.  `tokenOutcome` is the result of
`getZoomAccessToken(true)`; `download` is the axios GET of the transcript.
The participant list passed to `generateFeedback` is
`payload.object.participants || []` (line 641); the registry is never
consulted, which `registryReads = 0` records. -/
def handleTranscriptCompleted (tokenOutcome : Except String (Option String))
    (download : Except String String) (payload : Option Payload) :
    PipelineEffects :=
  match payload with
  | none => noEffects
  | some p =>
    match p.object with
    | none => noEffects
    | some obj =>
      match obj.recording_files with
      | none => noEffects
      | some files =>
        match files.find? (fun f => f.file_type == some "TRANSCRIPT") with
        | none => noEffects
        | some tf =>
          match tf.download_url with
          | none => noEffects
          | some _ =>
            match tokenOutcome with
            | .error _ => ⟨1, [], 0⟩
            | .ok _ =>
              match download with
              | .error _ => ⟨1, [], 0⟩
              | .ok text => ⟨1, [(text, (obj.participants).getD [])], 0⟩

/-! ## Webhook route (`POST /api/zoom-webhook`, index.js lines 43-120) -/

/-- Response body: plain text (`res.send`) or the URL-validation JSON. -/
inductive RespBody where
  | text (s : String)
  | validationJson (plainToken encryptedToken : String)
  deriving DecidableEq, Repr

/-- Result of one request to the webhook route: HTTP status, body, registry
after the request, whether section 3 (verified event processing) was
reached, and the pipeline effects. -/
structure RouteResult where
  status : Nat
  body : RespBody
  registry : Registry
  processed : Bool
  effects : PipelineEffects
  deriving DecidableEq, Repr

/-- Shallow embedding of the `POST /api/zoom-webhook` handler (index.js
lines 43-120).  `hmac secret message` abstracts
`crypto.createHmac('sha256', secret).update(message).digest('hex')`;
`secretEnv` is `process.env.ZOOM_WEBHOOK_SECRET_TOKEN` (the code uses
`secretEnv || ''`); `sigHeader` / `tsHeader` are the raw header values
(`none` when the header is missing); `rawBody` is `req.rawBody.toString()`. -/
def zoomWebhookRoute (hmac : String → String → String) (secretEnv : Option String)
    (sigHeader tsHeader : Option String) (rawBody : String) (body : ReqBody)
    (r : Registry) (nowIso : String)
    (tokenOutcome : Except String (Option String)) (download : Except String String) :
    RouteResult :=
  let secret := jsOrEmpty secretEnv
  if body.event == some "endpoint.url_validation" then
    let pt := body.payload.bind (fun p => p.plainToken)
    if jsStrFalsy pt then
      ⟨400, .text "plainToken missing", r, false, noEffects⟩
    else
      let t := pt.getD ""
      ⟨200, .validationJson t (hmac secret t), r, false, noEffects⟩
  else
    if jsStrFalsy sigHeader || jsStrFalsy tsHeader then
      ⟨401, .text "Verification failed.", r, false, noEffects⟩
    else
      let sig := sigHeader.getD ""
      let ts := tsHeader.getD ""
      let expected := "v0=" ++ hmac secret ("v0:" ++ ts ++ ":" ++ rawBody)
      if sig ≠ expected then
        ⟨401, .text "Verification failed.", r, false, noEffects⟩
      else
        let ev := body.event
        if ev == some "meeting.participant_joined" ||
            ev == some "meeting.participant_left" then
          match handleParticipantEvent (ev.getD "") body.payload nowIso r with
          | .error _ => ⟨500, .text "Internal server error", r, true, noEffects⟩
          | .ok r2 => ⟨200, .text "Event received.", r2, true, noEffects⟩
        else if ev == some "recording.completed" then
          match handleRecordingCompleted body.payload with
          | .error _ => ⟨500, .text "Internal server error", r, true, noEffects⟩
          | .ok _ => ⟨200, .text "Event received.", r, true, noEffects⟩
        else if ev == some "recording.transcript_completed" then
          ⟨200, .text "Event received.", r, true,
            handleTranscriptCompleted tokenOutcome download body.payload⟩
        else
          ⟨200, .text "Event received.", r, true, noEffects⟩

/-! ## Spec-side definitions used to compare the code against claim text -/

/-- Drop the characters of the fence's opening line, newline included. -/
def dropFirstLine (l : List Char) : List Char :=
  (l.dropWhile (fun c => c ≠ '\n')).drop 1

/-- Take characters until a closing fence that starts a new line. -/
def takeUntilFence : List Char → List Char
  | [] => []
  | c :: cs =>
    if "\n```".data.isPrefixOf (c :: cs) then [] else c :: takeUntilFence cs

/-- Modelled from the spec: the markdown code-fence extraction that claim
C6 attributes to `generateFeedback`.  No such step exists in the source
(index.js lines 799-809 go straight from a `JSON.parse` failure to the
fallback object); this definition renders the claim's words — take the
block between the opening fence line and the closing fence. -/
def extractFenced (content : String) : Option String :=
  if "```".data.isPrefixOf content.data then
    some (String.mk (takeUntilFence (dropFirstLine content.data)))
  else none

/-- Modelled from the spec: `generateFeedback` as claim C6 describes it,
i.e. with a secondary parse attempt on the extracted code-fence block. -/
def generateFeedbackClaimed (openaiKey : Option String)
    (jsonParse : String → Option (List (String × String)))
    (chat : ChatOutcome) (_tr : String) (_ps : List PersonRef) :
    List (String × String) × Nat :=
  if jsStrFalsy openaiKey || openaiKey == some "your_openai_api_key_here" then
    (mockFeedbackObj, 0)
  else
    match chat with
    | .failure m => (apiErrorObj m, 1)
    | .success content =>
      match jsonParse content with
      | some obj => (obj, 1)
      | none =>
        match (extractFenced content).bind jsonParse with
        | some obj => (obj, 1)
        | none => (parseFallbackObj content, 1)

/-- A model response wrapping valid JSON in a markdown code fence. -/
def c6Content : String := "```json\n\x7b\"summary\": \"Hello\"\x7d\n```"

/-- Behaviour of `JSON.parse` at the inputs relevant to claim C6: it fails
on the fenced string (real `JSON.parse` throws on a leading backtick) and
succeeds on the inner JSON object. -/
def c6Parse : String → Option (List (String × String)) :=
  fun s =>
    if s = "\x7b\"summary\": \"Hello\"\x7d" then some [("summary", "Hello")]
    else none

/-- The speaker-label test of the claim: a line with a colon whose trimmed
prefix is under 50 characters and whose trimmed suffix is non-empty. -/
def vttSpeakerSplit (line : List Char) : Option (List Char × List Char) :=
  if line.contains ':' then
    let sp := trimChars (line.takeWhile (fun c => c ≠ ':'))
    let tx := trimChars ((line.dropWhile (fun c => c ≠ ':')).drop 1)
    if tx.length > 0 && sp.length < 50 then some (sp, tx) else none
  else none

/-- Modelled from the spec: the normalizer as claim C7 (amended) describes
it, over whitespace-trimmed lines — skip header/timing/numeric/empty lines;
a speaker-labelled line emits `Speaker: text` and becomes the carried
speaker; a colon-free line is prefixed with the carried speaker when one is
set; every other line is emitted as-is (trimmed). -/
def vttSpecEmit (speaker : List Char) : List (List Char) → List (List Char)
  | [] => []
  | raw :: rest =>
    let line := trimChars raw
    if vttSkip line then vttSpecEmit speaker rest
    else
      match vttSpeakerSplit line with
      | some (sp, tx) => (sp ++ ": ".data ++ tx) :: vttSpecEmit sp rest
      | none =>
        if line.contains ':' || speaker.isEmpty then line :: vttSpecEmit speaker rest
        else (speaker ++ ": ".data ++ line) :: vttSpecEmit speaker rest

/-- The claim-side normalizer on strings. -/
def specParseVTTToText (s : String) : String :=
  String.mk (joinNl (vttSpecEmit [] (splitNl s.data)))

/-- The concrete block of claim C7: header line, numeric sequence lines,
timing-arrow lines, and two labelled speaker lines. -/
def c7ExampleBlock : String :=
  "WEBVTT\n\n1\n00:00:01.000 --> 00:00:03.000\nAlice: Hello there\n\n2\n00:00:04.000 --> 00:00:06.000\nBob: Hi Alice"

/-- Concrete join-event request body for the C4 scenario. -/
def c4JoinBody : ReqBody :=
  ⟨some "meeting.participant_joined",
    some ⟨none, some ⟨some "m-1",
      some ⟨some "u1", some "Alice", some "alice@example.com"⟩,
      none, none, none⟩⟩⟩

/-- Concrete transcript-completed request body for the same meeting `m-1`;
like a real transcript webhook payload it carries no `participants`
array. -/
def c4TranscriptBody : ReqBody :=
  ⟨some "recording.transcript_completed",
    some ⟨none, some ⟨some "m-1", none,
      some [⟨some "TRANSCRIPT", some "https://zoom.example/rec"⟩],
      none, none⟩⟩⟩

/-- A non-empty string is not `isEmpty`. -/
theorem isEmpty_false_of_ne (t : String) (h : t ≠ "") : t.isEmpty = false := by
  cases ht : t.isEmpty
  · rfl
  · exact absurd ((String.isEmpty_iff t).mp ht) h

/-! ## Claim C1 — signature verification for non-validation events -/

/-- C1 counterexample: with the timestamp header present but empty and a
signature that equals `v0=` followed by the HMAC of `v0::body` (the exact
message for the empty timestamp), the claim requires the handler to proceed
to event processing, but the code's truthiness test
`if (!signature || !timestamp)` rejects the request with 401 before
comparing signatures. -/
theorem zoom_webhook_auth_empty_header_cex :
    (zoomWebhookRoute (fun _ _ => "d00d") (some "sec") (some "v0=d00d") (some "")
        "body" ⟨some "meeting.participant_joined", some ⟨none, none⟩⟩ ([] : Registry)
        "t" (.error "e") (.error "e")).status = 401
    ∧ (zoomWebhookRoute (fun _ _ => "d00d") (some "sec") (some "v0=d00d") (some "")
        "body" ⟨some "meeting.participant_joined", some ⟨none, none⟩⟩ ([] : Registry)
        "t" (.error "e") (.error "e")).processed = false
    ∧ "v0=d00d" =
        "v0=" ++ (fun (_ _ : String) => "d00d") "sec" ("v0:" ++ "" ++ ":" ++ "body") :=
  ⟨by decide, by decide, rfl⟩

/-- C1 (amended): for every non-validation webhook POST, if the signature
or timestamp header is absent or empty the handler responds 401 before any
event-specific logic runs (no processing, registry untouched, no pipeline
effects); otherwise it responds 401 exactly when the provided signature
differs from `v0=` followed by the HMAC-SHA256 hex digest of
`v0:{timestamp}:{rawBody}` under the shared secret, and proceeds to event
processing (never responding 401) exactly when they are equal. -/
theorem zoom_webhook_auth_check (hmac : String → String → String)
    (secretEnv sigHeader tsHeader : Option String) (rawBody : String)
    (body : ReqBody) (r : Registry) (nowIso : String)
    (tokenOutcome : Except String (Option String)) (download : Except String String)
    (hev : body.event ≠ some "endpoint.url_validation") (res : RouteResult)
    (hres : zoomWebhookRoute hmac secretEnv sigHeader tsHeader rawBody body r nowIso
      tokenOutcome download = res) :
    ((jsStrFalsy sigHeader || jsStrFalsy tsHeader) = true →
      res = ⟨401, .text "Verification failed.", r, false, noEffects⟩)
    ∧ ((jsStrFalsy sigHeader || jsStrFalsy tsHeader) = false →
        (sigHeader.getD "" ≠
            "v0=" ++ hmac (jsOrEmpty secretEnv)
              ("v0:" ++ tsHeader.getD "" ++ ":" ++ rawBody) →
          res = ⟨401, .text "Verification failed.", r, false, noEffects⟩)
        ∧ (sigHeader.getD "" =
            "v0=" ++ hmac (jsOrEmpty secretEnv)
              ("v0:" ++ tsHeader.getD "" ++ ":" ++ rawBody) →
          res.processed = true ∧ res.status ≠ 401)) := by
  subst hres
  have hev' : (body.event == some "endpoint.url_validation") = false := by
    simpa using hev
  unfold zoomWebhookRoute
  refine ⟨fun hmiss => by simp [hev', hmiss],
    fun hok => ⟨fun hne => by simp [hev', hok, hne], fun heq => ?_⟩⟩
  simp only [hev', hok, heq]
  simp only [Bool.false_eq_true, if_false, ne_eq, not_true_eq_false]
  repeat' split
  all_goals simp

/-- Witness for C1: a mismatching signature with both headers non-empty is
rejected with 401. -/
theorem zoom_webhook_auth_check_witness :
    zoomWebhookRoute (fun _ _ => "h") (some "s") (some "bad") (some "1") "b"
        ⟨some "evt", none⟩ ([] : Registry) "t" (.error "x") (.error "x") =
      ⟨401, .text "Verification failed.", [], false, noEffects⟩ := by
  have h := zoom_webhook_auth_check (fun _ _ => "h") (some "s") (some "bad")
    (some "1") "b" ⟨some "evt", none⟩ ([] : Registry) "t" (.error "x") (.error "x")
    (by decide) _ rfl
  exact (h.2 (by decide)).1 (by decide)

/-! ## Claim C3 — URL-validation challenge -/

/-- C3 counterexample: a validation request whose `plainToken` is present
but equal to the empty string is answered 400 (`!plainToken` is true for
`''`), while the claim, which returns 400 only for an absent token,
requires 200. -/
theorem url_validation_empty_token_cex :
    (zoomWebhookRoute (fun _ _ => "h") (some "sec") none none ""
        ⟨some "endpoint.url_validation", some ⟨some "", none⟩⟩ ([] : Registry)
        "t" (.error "e") (.error "e")).status = 400
    ∧ (zoomWebhookRoute (fun _ _ => "h") (some "sec") none none ""
        ⟨some "endpoint.url_validation", some ⟨some "", none⟩⟩ ([] : Registry)
        "t" (.error "e") (.error "e")).body = .text "plainToken missing"
    ∧ (Payload.mk (some "") none).plainToken ≠ none :=
  ⟨by decide, by decide, by decide⟩

/-- C3 (amended): for every POST whose body event is
`endpoint.url_validation`, if `payload.plainToken` is absent or empty the
response status is 400; otherwise the status is 200 with body
`{ plainToken, encryptedToken }` where `encryptedToken` is the HMAC-SHA256
hex digest of the plain token under the shared secret; no signature check
is performed for this event (the response does not depend on the signature
or timestamp headers, and no event processing runs). -/
theorem url_validation_spec (hmac : String → String → String)
    (secretEnv sigHeader tsHeader : Option String) (rawBody : String)
    (body : ReqBody) (r : Registry) (nowIso : String)
    (tokenOutcome : Except String (Option String)) (download : Except String String)
    (hev : body.event = some "endpoint.url_validation") :
    (jsStrFalsy (body.payload.bind (fun p => p.plainToken)) = true →
      zoomWebhookRoute hmac secretEnv sigHeader tsHeader rawBody body r nowIso
          tokenOutcome download =
        ⟨400, .text "plainToken missing", r, false, noEffects⟩)
    ∧ (∀ t, body.payload.bind (fun p => p.plainToken) = some t → t ≠ "" →
        zoomWebhookRoute hmac secretEnv sigHeader tsHeader rawBody body r nowIso
            tokenOutcome download =
          ⟨200, .validationJson t (hmac (jsOrEmpty secretEnv) t), r, false,
            noEffects⟩)
    ∧ (∀ sig2 ts2,
        zoomWebhookRoute hmac secretEnv sig2 ts2 rawBody body r nowIso
            tokenOutcome download =
          zoomWebhookRoute hmac secretEnv sigHeader tsHeader rawBody body r nowIso
            tokenOutcome download) := by
  have hev' : (body.event == some "endpoint.url_validation") = true := by
    simp [hev]
  refine ⟨fun hmiss => by simp [zoomWebhookRoute, hev', hmiss], ?_, ?_⟩
  · intro t ht hne
    have hfal : jsStrFalsy (some t) = false := by
      simp [jsStrFalsy, isEmpty_false_of_ne t hne]
    simp [zoomWebhookRoute, hev', ht, hfal]
  · intro sig2 ts2
    simp [zoomWebhookRoute, hev']

/-- Witness for C3: a present, non-empty plain token is answered 200 with
its HMAC, and the answer ignores the signature headers. -/
theorem url_validation_spec_witness :
    zoomWebhookRoute (fun _ _ => "h") (some "sec") none none ""
        ⟨some "endpoint.url_validation", some ⟨some "tok123", none⟩⟩ ([] : Registry)
        "t" (.error "e") (.error "e") =
      ⟨200, .validationJson "tok123" ((fun (_ _ : String) => "h") "sec" "tok123"),
        [], false, noEffects⟩ := by
  have h := url_validation_spec (fun _ _ => "h") (some "sec") none none ""
    ⟨some "endpoint.url_validation", some ⟨some "tok123", none⟩⟩ ([] : Registry)
    "t" (.error "e") (.error "e") rfl
  exact h.2.1 "tok123" rfl (by decide)

/-! ## Claim C2 — token cache behaviour -/

/-- C2 counterexample: a 2xx token response with a malformed body — numeric
`expires_in` but no `access_token` — is a failed token request in the
claim's sense, yet `getZoomAccessToken` raises no error: every use of
`access_token` on the success path is optional-chained, so the code runs to
the end, writes `{ token: undefined, expiresAt: now + 3300*1000 }` into the
cache and returns `undefined`, contradicting "a failed token request
(non-2xx, network error, malformed response) never stores a token in the
cache and raises an error naming the failure cause". -/
theorem malformed_token_response_not_rejected_cex :
    getZoomAccessToken (some "clientId") (some "clientSecret") false 1000
        initialTokenCache (.success none (some 3600)) =
      ⟨.ok none, ⟨none, some (1000 + (3600 - 300) * 1000)⟩, 1⟩ := rfl

/-- C2 (amended): with a truthy cached token and current time before its
expiry (and no forced refresh), the cached value is returned with zero
requests; otherwise, when both client credentials are configured, exactly
one request is made: a 2xx response with a numeric `expires_in` caches
`{ token: access_token, expiresAt: now + (expires_in - 300)*1000 }` and is
returned without any error even when `access_token` is absent; a 2xx
response without a numeric `expires_in` raises
`Failed to get Zoom access token: Invalid time value` (the `RangeError`
thrown at the `Expires at:` debug log) before anything is cached; a
non-2xx/network failure never stores a token and raises an error naming
the cause; with credentials missing, zero requests are made and a
configuration error is raised. -/
theorem getZoomAccessToken_cache_spec (cid cs : Option String) (force : Bool)
    (now : Int) (cache : TokenCache) (http : TokenHttp) :
    ((!force && !(jsStrFalsy cache.token) && jsLtOpt now cache.expiresAt) = true →
      getZoomAccessToken cid cs force now cache http = ⟨.ok cache.token, cache, 0⟩)
    ∧ ((!force && !(jsStrFalsy cache.token) && jsLtOpt now cache.expiresAt) = false →
        jsStrFalsy cid = false → jsStrFalsy cs = false →
        (∀ tok e, http = .success tok (some e) →
          getZoomAccessToken cid cs force now cache http =
            ⟨.ok tok, ⟨tok, some (now + (e - 300) * 1000)⟩, 1⟩)
        ∧ (∀ tok, http = .success tok none →
          getZoomAccessToken cid cs force now cache http =
            ⟨.error ("Failed to get Zoom access token: " ++ "Invalid time value"),
              if force then initialTokenCache else cache, 1⟩)
        ∧ (∀ m, http = .failure m →
          getZoomAccessToken cid cs force now cache http =
            ⟨.error ("Failed to get Zoom access token: " ++ m),
              if force then initialTokenCache else cache, 1⟩))
    ∧ ((!force && !(jsStrFalsy cache.token) && jsLtOpt now cache.expiresAt) = false →
        (jsStrFalsy cid || jsStrFalsy cs) = true →
        getZoomAccessToken cid cs force now cache http =
          ⟨.error "Zoom API credentials not configured. Set ZOOM_CLIENT_ID and ZOOM_CLIENT_SECRET in .env",
            if force then initialTokenCache else cache, 0⟩) := by
  unfold getZoomAccessToken
  refine ⟨fun h => by simp [h], fun h hcid hcs => ⟨?_, ?_, ?_⟩,
    fun h hcred => by simp [h, hcred]⟩
  · intro tok e hh
    subst hh
    simp [h, hcid, hcs]
  · intro tok hh
    subst hh
    simp [h, hcid, hcs]
  · intro m hh
    subst hh
    simp [h, hcid, hcs]

/-- Witness for C2: concrete cache hit, a malformed 2xx body without
`expires_in` that raises and caches nothing, and a failing request that
stores nothing and raises. -/
theorem getZoomAccessToken_cache_spec_witness :
    getZoomAccessToken (some "id") (some "sec") false 50 ⟨some "cached", some 100⟩
        (.failure "unused") = ⟨.ok (some "cached"), ⟨some "cached", some 100⟩, 0⟩
    ∧ getZoomAccessToken (some "id") (some "sec") false 50 initialTokenCache
        (.success (some "tok") none) =
      ⟨.error ("Failed to get Zoom access token: " ++ "Invalid time value"),
        initialTokenCache, 1⟩
    ∧ getZoomAccessToken (some "id") (some "sec") false 50 initialTokenCache
        (.failure "invalid_client") =
      ⟨.error ("Failed to get Zoom access token: " ++ "invalid_client"),
        initialTokenCache, 1⟩ := by
  refine ⟨?_, ?_, ?_⟩
  · exact (getZoomAccessToken_cache_spec (some "id") (some "sec") false 50
      ⟨some "cached", some 100⟩ (.failure "unused")).1 (by decide)
  · exact ((getZoomAccessToken_cache_spec (some "id") (some "sec") false 50
      initialTokenCache (.success (some "tok") none)).2.1 (by decide) (by decide)
      (by decide)).2.1 (some "tok") rfl
  · exact ((getZoomAccessToken_cache_spec (some "id") (some "sec") false 50
      initialTokenCache (.failure "invalid_client")).2.1 (by decide) (by decide)
      (by decide)).2.2 "invalid_client" rfl

/-! ## Claim C9 — forced refresh clears the cache before the request -/

/-- C9: `getZoomAccessToken(true)` resets the cache to
`{ token: null, expiresAt: 0 }` before the request, so a failing forced
refresh leaves the cache empty (any previously cached, still-valid token is
discarded) and the next unforced call cannot hit the cache: it performs a
network request. -/
theorem force_refresh_failure_empties_cache (cid cs : Option String) (now : Int)
    (cache : TokenCache) (m : String)
    (hcid : jsStrFalsy cid = false) (hcs : jsStrFalsy cs = false) :
    (getZoomAccessToken cid cs true now cache (.failure m)).cache = initialTokenCache
    ∧ (getZoomAccessToken cid cs true now cache (.failure m)).result =
        .error ("Failed to get Zoom access token: " ++ m)
    ∧ (getZoomAccessToken cid cs true now cache (.failure m)).requests = 1
    ∧ (∀ now2 http2,
        (getZoomAccessToken cid cs false now2 initialTokenCache http2).requests = 1) := by
  refine ⟨?_, ?_, ?_, ?_⟩
  · simp [getZoomAccessToken, hcid, hcs]
  · simp [getZoomAccessToken, hcid, hcs]
  · simp [getZoomAccessToken, hcid, hcs]
  · intro now2 http2
    cases http2 with
    | success tok ei =>
      cases ei <;>
        simp [getZoomAccessToken, initialTokenCache, hcid, hcs,
          show jsStrFalsy (none : Option String) = true from rfl]
    | failure m =>
      simp [getZoomAccessToken, initialTokenCache, hcid, hcs,
        show jsStrFalsy (none : Option String) = true from rfl]

/-- Witness for C9: a still-valid cached token is discarded by a failing
forced refresh. -/
theorem force_refresh_failure_empties_cache_witness :
    (getZoomAccessToken (some "id") (some "sec") true 5 ⟨some "goodtok", some 99999⟩
        (.failure "denied")).cache = initialTokenCache
    ∧ (getZoomAccessToken (some "id") (some "sec") true 5 ⟨some "goodtok", some 99999⟩
        (.failure "denied")).result =
        .error ("Failed to get Zoom access token: " ++ "denied")
    ∧ (getZoomAccessToken (some "id") (some "sec") true 5 ⟨some "goodtok", some 99999⟩
        (.failure "denied")).requests = 1
    ∧ (∀ now2 http2,
        (getZoomAccessToken (some "id") (some "sec") false now2 initialTokenCache
          http2).requests = 1) :=
  force_refresh_failure_empties_cache (some "id") (some "sec") 5
    ⟨some "goodtok", some 99999⟩ "denied" (by decide) (by decide)

/-! ## Claim C5 — the full access token is written to the log -/

/-- C5: on every successful token acquisition the debug statement
`console.log('Raw response:', JSON.stringify(response.data, null, 2))`
(index.js line 245) writes the complete access token to the log, violating
the requirement that only length or a short prefix be surfaced. -/
theorem full_token_logged_in_raw_response :
    (zoomTokenSuccessLogs "cid" "clientSecretValue" c5Token "recording:read"
        c5Data).any (fun e => jsIncludes c5Token e) = true := by decide

/-! ## Claim C6 — feedback parse fallback -/

set_option maxRecDepth 8000 in
/-- C6 counterexample: on a model response wrapping valid JSON in a
markdown code fence, the code returns the parse-failure fallback directly,
while the claimed secondary code-fence extraction would have recovered the
embedded object — the secondary strategy does not exist in the source. -/
theorem no_code_fence_retry_cex :
    generateFeedback (some "sk-test") c6Parse (.success c6Content) "t" [] =
      (parseFallbackObj c6Content, 1)
    ∧ generateFeedbackClaimed (some "sk-test") c6Parse (.success c6Content) "t" [] =
      ([("summary", "Hello")], 1)
    ∧ parseFallbackObj c6Content ≠ [("summary", "Hello")] :=
  ⟨rfl, by decide, by decide⟩

/-- C6 (amended): with the API key configured, `generateFeedback` never
raises: it parses the model response content as JSON and returns the parsed
object on success; if parsing fails it returns — directly, with no
code-fence extraction attempt — a structurally valid fallback containing
all required top-level fields; a failed chat-completion call likewise
yields a fallback with all required fields. -/
theorem generateFeedback_fallback_spec (openaiKey : Option String)
    (jsonParse : String → Option (List (String × String)))
    (chat : ChatOutcome) (tr : String) (ps : List PersonRef)
    (hkey : (jsStrFalsy openaiKey ||
      openaiKey == some "your_openai_api_key_here") = false) :
    (∀ m, chat = .failure m →
      generateFeedback openaiKey jsonParse chat tr ps = (apiErrorObj m, 1)
      ∧ fieldNames (apiErrorObj m) = requiredFeedbackFields)
    ∧ (∀ content obj, chat = .success content → jsonParse content = some obj →
      generateFeedback openaiKey jsonParse chat tr ps = (obj, 1))
    ∧ (∀ content, chat = .success content → jsonParse content = none →
      generateFeedback openaiKey jsonParse chat tr ps = (parseFallbackObj content, 1)
      ∧ fieldNames (parseFallbackObj content) = requiredFeedbackFields) := by
  refine ⟨?_, ?_, ?_⟩
  · intro m hm
    subst hm
    exact ⟨by simp [generateFeedback, hkey],
      by simp [apiErrorObj, fieldNames, requiredFeedbackFields]⟩
  · intro content obj hc hp
    subst hc
    simp [generateFeedback, hkey, hp]
  · intro content hc hp
    subst hc
    exact ⟨by simp [generateFeedback, hkey, hp],
      by simp [parseFallbackObj, fieldNames, requiredFeedbackFields]⟩

/-- Witness for C6: an unparsable response yields the six-field fallback. -/
theorem generateFeedback_fallback_spec_witness :
    generateFeedback (some "sk-live") (fun _ => none) (.success "not json") "t" [] =
      (parseFallbackObj "not json", 1)
    ∧ fieldNames (parseFallbackObj "not json") = requiredFeedbackFields := by
  have h := generateFeedback_fallback_spec (some "sk-live") (fun _ => none)
    (.success "not json") "t" [] (by decide)
  exact h.2.2 "not json" rfl rfl

/-! ## Claim C10 — mock feedback when the API key is missing -/

/-- C10 counterexample: the JSON-parse-success path is a return path of
`generateFeedback`, and it returns whatever object the model produced —
here one lacking `communicationInsights` (and the other three fields the
claim asserts are present in every other return path). -/
theorem parsed_path_missing_fields_cex :
    generateFeedback (some "sk-live")
        (fun s => if s = "\x7b\"summary\": \"x\"\x7d" then some [("summary", "x")]
          else none)
        (.success "\x7b\"summary\": \"x\"\x7d") "t" [] = ([("summary", "x")], 1)
    ∧ "communicationInsights" ∉ fieldNames [("summary", "x")] :=
  ⟨by decide, by decide⟩

/-- C10 (amended): when the OpenAI key is unset or the placeholder,
`generateFeedback` makes no network call and returns exactly the object
with fields `summary`, `insights`, `actionItems`; those lack the four
fields present in both structured fallback return paths (parse failure and
API error), while the JSON-parse-success path returns the model's object
unchanged, whose fields are arbitrary. -/
theorem missing_key_mock_feedback (openaiKey : Option String)
    (jsonParse : String → Option (List (String × String)))
    (chat : ChatOutcome) (tr : String) (ps : List PersonRef)
    (hkey : (jsStrFalsy openaiKey ||
      openaiKey == some "your_openai_api_key_here") = true) :
    generateFeedback openaiKey jsonParse chat tr ps = (mockFeedbackObj, 0)
    ∧ fieldNames mockFeedbackObj = ["summary", "insights", "actionItems"]
    ∧ (∀ f, f ∈ (["communicationInsights", "hiddenDynamics",
          "collaborationScore", "individualFeedback"] : List String) →
        f ∉ fieldNames mockFeedbackObj
        ∧ (∀ m, f ∈ fieldNames (apiErrorObj m))
        ∧ (∀ c, f ∈ fieldNames (parseFallbackObj c))) := by
  refine ⟨by simp [generateFeedback, hkey], by decide, ?_⟩
  intro f hf
  fin_cases hf <;>
    exact ⟨by decide, fun m => by simp [apiErrorObj, fieldNames],
      fun c => by simp [parseFallbackObj, fieldNames]⟩

/-- Witness for C10: an absent key yields the mock object without any
network call. -/
theorem missing_key_mock_feedback_witness :
    generateFeedback none (fun _ => none) (.success "ignored") "t" [] =
      (mockFeedbackObj, 0) :=
  (missing_key_mock_feedback none (fun _ => none) (.success "ignored") "t" []
    (by decide)).1

/-! ## Claim C7 — subtitle normalizer -/

/-- C7 counterexample: the line `" 7 "` is neither empty nor purely numeric
as written, so the claim emits it as-is; the code trims each line first,
finds `"7"` purely numeric, and removes it. -/
theorem vtt_untrimmed_line_cex :
    parseVTTToText " 7 " = ""
    ∧ (" 7 " : String) ≠ ""
    ∧ (" 7 ".data.all Char.isDigit) = false :=
  ⟨by decide, by decide, by decide⟩

/-- Helper: the code's per-line loop agrees with the claim-side emitter. -/
theorem vttLoop_eq_spec (speaker : List Char) (ls : List (List Char)) :
    vttLoop speaker ls = vttSpecEmit speaker ls := by
  induction ls generalizing speaker with
  | nil => rfl
  | cons raw rest ih =>
    unfold vttLoop vttSpecEmit vttSpeakerSplit
    cases hskip : vttSkip (trimChars raw)
    · have harrow : listIncludes "-->".data (trimChars raw) = false := by
        unfold vttSkip at hskip
        simp only [Bool.or_eq_false_iff] at hskip
        exact hskip.1.2
      cases hcolon : (trimChars raw).contains ':'
      · have hmem : ¬ (':' ∈ trimChars raw) := by simpa using hcolon
        simp [hskip, harrow, hcolon, hmem, ih]
      · have hmem : (':' ∈ trimChars raw) := by simpa using hcolon
        simp only [hskip, harrow, hcolon, hmem, Bool.not_false, Bool.and_true,
          Bool.false_eq_true, if_false, if_true]
        split <;> simp [ih]
    · simp [hskip, ih]

/-- C7 (amended): `parseVTTToText` trims each line and then behaves as the
claim describes on the trimmed lines — it removes every line that is empty,
starts with `WEBVTT`, contains a timing arrow, or is purely numeric; a
remaining line with a colon whose trimmed prefix is under 50 characters and
trimmed suffix non-empty is emitted as `Speaker: text` and its speaker is
carried to subsequent colon-free lines; every other line is emitted
trimmed, as-is.  In particular the claim's concrete block yields exactly
the two speaker lines in order. -/
theorem parseVTT_spec :
    (∀ s, parseVTTToText s = specParseVTTToText s)
    ∧ parseVTTToText c7ExampleBlock = "Alice: Hello there\nBob: Hi Alice" := by
  constructor
  · intro s
    unfold parseVTTToText specParseVTTToText
    rw [vttLoop_eq_spec]
  · decide

/-! ## Claim C4 — participant registry and the transcript pipeline -/

/-- C4 counterexample: a verified join for meeting `m-1` stores Alice in
the registry, but the verified transcript-completed event for `m-1` reads
the registry zero times (not once) and invokes feedback generation with the
empty participant list (not a non-empty list containing Alice). -/
theorem join_then_transcript_registry_cex :
    (zoomWebhookRoute (fun _ _ => "s") (some "sec") (some "v0=s") (some "1") "jb"
        c4JoinBody ([] : Registry) "2025-01-01T00:00:00Z" (.ok (some "tok"))
        (.ok "WEBVTT text")).registry =
      [("m-1", [⟨some "u1", some "Alice", some "alice@example.com",
        "2025-01-01T00:00:00Z"⟩])]
    ∧ (zoomWebhookRoute (fun _ _ => "s") (some "sec") (some "v0=s") (some "1") "tb"
        c4TranscriptBody
        [("m-1", [⟨some "u1", some "Alice", some "alice@example.com",
          "2025-01-01T00:00:00Z"⟩])]
        "2025-01-01T01:00:00Z" (.ok (some "tok")) (.ok "WEBVTT text")).effects =
      ⟨1, [("WEBVTT text", [])], 0⟩ :=
  ⟨by decide, by decide⟩

/-- C4 (amended): the transcript pipeline never reads the in-memory
participant registry (zero reads, for every input), and when it reaches the
feedback stage it passes `payload.object.participants || []` from the
transcript event itself — so prior join events do not influence the
participant list, which is empty whenever the transcript payload carries
none. -/
theorem transcript_pipeline_ignores_registry :
    (∀ tokenOutcome download payload,
      (handleTranscriptCompleted tokenOutcome download payload).registryReads = 0)
    ∧ (∀ (tokv : Option String) (text : String) (p : Payload) (obj : PayloadObject)
        (files : List RecordingFile) (tf : RecordingFile) (d : String),
        p.object = some obj → obj.recording_files = some files →
        files.find? (fun f => f.file_type == some "TRANSCRIPT") = some tf →
        tf.download_url = some d →
        (handleTranscriptCompleted (.ok tokv) (.ok text) (some p)).feedbackCalls =
          [(text, (obj.participants).getD [])]) := by
  constructor
  · intro tokenOutcome download payload
    unfold handleTranscriptCompleted
    repeat' split
    all_goals rfl
  · intro tokv text p obj files tf d hobj hfiles hfind hd
    unfold handleTranscriptCompleted
    simp [hobj, hfiles, hfind, hd]

/-- Witness for C4: a concrete transcript event reaching the feedback stage
with an empty payload participant list. -/
theorem transcript_pipeline_ignores_registry_witness :
    (handleTranscriptCompleted (.ok (some "tok")) (.ok "text")
      (some ⟨none, some ⟨some "m-1", none,
        some [⟨some "TRANSCRIPT", some "u"⟩], none, none⟩⟩)).feedbackCalls =
      [("text", [])]
    ∧ (handleTranscriptCompleted (.ok (some "tok")) (.ok "text")
      (some ⟨none, some ⟨some "m-1", none,
        some [⟨some "TRANSCRIPT", some "u"⟩], none, none⟩⟩)).registryReads = 0 := by
  constructor
  · exact transcript_pipeline_ignores_registry.2 (some "tok") "text"
      ⟨none, some ⟨some "m-1", none, some [⟨some "TRANSCRIPT", some "u"⟩],
        none, none⟩⟩
      ⟨some "m-1", none, some [⟨some "TRANSCRIPT", some "u"⟩], none, none⟩
      [⟨some "TRANSCRIPT", some "u"⟩] ⟨some "TRANSCRIPT", some "u"⟩ "u"
      rfl rfl (by decide) rfl
  · exact transcript_pipeline_ignores_registry.1 (.ok (some "tok")) (.ok "text") _

/-! ## Claim C8 — verified known events acknowledge 200 despite failures -/

/-- Helper: with a payload object present, `handleParticipantEvent` never
throws. -/
theorem handleParticipantEvent_ok (e : String) (p : Payload) (nowIso : String)
    (r : Registry) : ∃ r2, handleParticipantEvent e (some p) nowIso r = .ok r2 := by
  simp only [handleParticipantEvent]
  rcases hu : p.object.bind (fun o => o.uuid) with _ | u
  · rcases hq : p.object.bind (fun o => o.participant) with _ | pt <;> exact ⟨r, rfl⟩
  · rcases hq : p.object.bind (fun o => o.participant) with _ | pt
    · exact ⟨r, rfl⟩
    · by_cases hu0 : u = ""
      · exact ⟨r, by simp [hu0]⟩
      · by_cases hj : e = "meeting.participant_joined"
        · simp only [if_neg hu0, if_pos hj]
          exact ⟨_, rfl⟩
        · by_cases hl : e = "meeting.participant_left"
          · simp only [if_neg hu0, if_neg hj, if_pos hl]
            exact ⟨_, rfl⟩
          · simp only [if_neg hu0, if_neg hj, if_neg hl]
            exact ⟨r, rfl⟩

/-- C8: every request bearing a correct signature for a known event type
(with its payload present) is acknowledged 200 `Event received.`, whatever
the outcomes of the downstream upstream calls — token acquisition and
transcript download may both fail, the pipeline error is swallowed by the
event handler's catch and never surfaces as a 500; a 401 can only arise
before this boundary. -/
theorem verified_known_event_returns_200 (hmac : String → String → String)
    (secretEnv sigHeader tsHeader : Option String) (rawBody : String)
    (body : ReqBody) (r : Registry) (nowIso : String)
    (tokenOutcome : Except String (Option String)) (download : Except String String)
    (hsig : jsStrFalsy sigHeader = false) (hts : jsStrFalsy tsHeader = false)
    (hmatch : sigHeader.getD "" =
      "v0=" ++ hmac (jsOrEmpty secretEnv)
        ("v0:" ++ tsHeader.getD "" ++ ":" ++ rawBody))
    (hknown : body.event = some "meeting.participant_joined"
      ∨ body.event = some "meeting.participant_left"
      ∨ body.event = some "recording.completed"
      ∨ body.event = some "recording.transcript_completed")
    (hpay : ∃ p, body.payload = some p) :
    (zoomWebhookRoute hmac secretEnv sigHeader tsHeader rawBody body r nowIso
      tokenOutcome download).status = 200
    ∧ (zoomWebhookRoute hmac secretEnv sigHeader tsHeader rawBody body r nowIso
      tokenOutcome download).body = .text "Event received." := by
  obtain ⟨p, hp⟩ := hpay
  rcases hknown with h | h | h | h
  · obtain ⟨r2, hr2⟩ :=
      handleParticipantEvent_ok "meeting.participant_joined" p nowIso r
    simp [zoomWebhookRoute, h, hp, hsig, hts, hmatch, hr2]
  · obtain ⟨r2, hr2⟩ :=
      handleParticipantEvent_ok "meeting.participant_left" p nowIso r
    simp [zoomWebhookRoute, h, hp, hsig, hts, hmatch, hr2]
  · simp [zoomWebhookRoute, h, hp, hsig, hts, hmatch, handleRecordingCompleted]
  · simp [zoomWebhookRoute, h, hp, hsig, hts, hmatch]

/-- Witness for C8: a verified transcript event whose token acquisition and
download both fail is still acknowledged 200. -/
theorem verified_known_event_returns_200_witness :
    (zoomWebhookRoute (fun _ _ => "h") (some "s") (some "v0=h") (some "1") "b"
      ⟨some "recording.transcript_completed", some ⟨none, none⟩⟩ ([] : Registry)
      "t" (.error "token down") (.error "download down")).status = 200
    ∧ (zoomWebhookRoute (fun _ _ => "h") (some "s") (some "v0=h") (some "1") "b"
      ⟨some "recording.transcript_completed", some ⟨none, none⟩⟩ ([] : Registry)
      "t" (.error "token down") (.error "download down")).body =
      .text "Event received." :=
  verified_known_event_returns_200 (fun _ _ => "h") (some "s") (some "v0=h")
    (some "1") "b" ⟨some "recording.transcript_completed", some ⟨none, none⟩⟩
    ([] : Registry) "t" (.error "token down") (.error "download down")
    (by decide) (by decide) (by decide) (Or.inr (Or.inr (Or.inr rfl))) ⟨_, rfl⟩

end ZoomSpaces
